import Mathlib

/-!
Verification development for the endpoints-telegram-bot repository.

We shallowly embed the TypeScript source into Lean:
pure functions (the intent parser, the sanitizer, the result mappers of the
backend client) become Lean functions; the session store and pending-file
store become explicit state passing over `Nat → Option _` key-value maps;
the random IV drawn by `crypto.randomBytes(16)` and the wall clock
`new Date().toISOString()` become explicit parameters; `fetch` outcomes
become `Except String _` parameters; thrown JS exceptions become
`Option`/`Except` results.  JS strings are modelled at the level of their
character sequences (ASCII-faithful: the JS whitespace class and case
folding are modelled for the ASCII range, which covers every literal the
program manipulates).
-/

/-! ## JS string primitives -/

/-- The JS whitespace class (`\s`, `String.prototype.trim`), ASCII range. -/
def isJsWS (c : Char) : Bool :=
  c = ' ' || c = '\t' || c = '\n' || c = '\r' || c = '\x0b' || c = '\x0c'

/-- JS line terminators (what `.` refuses to match without the `s` flag), ASCII range. -/
def isLineTerm (c : Char) : Bool :=
  c = '\n' || c = '\r'

/-- `String.prototype.trim` on a character list. -/
def jsTrimL (l : List Char) : List Char :=
  ((l.dropWhile isJsWS).reverse.dropWhile isJsWS).reverse

/-- `String.prototype.trim`. -/
def jsTrim (s : String) : String :=
  ⟨jsTrimL s.data⟩

/-- `String.prototype.toLowerCase`, ASCII range. -/
def lowerStr (s : String) : String :=
  ⟨s.data.map Char.toLower⟩

/-- `String.prototype.split(sep)` for a one-character separator.
`jsSplitCharL sep l` never returns the empty list, matching JS
(`''.split(':') = ['']`, `':'.split(':') = ['','']`). -/
def jsSplitCharL (sep : Char) : List Char → List (List Char)
  | [] => [[]]
  | c :: rest =>
    if c = sep then [] :: jsSplitCharL sep rest
    else
      match jsSplitCharL sep rest with
      | [] => [[c]]
      | h :: t => (c :: h) :: t

/-- `Array.prototype.join(sep)` for a one-character separator. -/
def joinSepL (sep : Char) : List (List Char) → List Char
  | [] => []
  | [l] => l
  | l :: rest => l ++ sep :: joinSepL sep rest

/-- Anchored literal test `/^tag/` (`String.prototype.startsWith`), written on
character lists so it evaluates inside the kernel. -/
def strHasTag (tag : String) (s : String) : Bool :=
  List.isPrefixOf tag.data s.data

/-- Capture group of the anchored regex `/^X:\s*(.+)/s` applied after the
literal tag: with the `s` flag, `.` matches every character, so the greedy
`\s*` backtracks just enough to leave at least one character for `(.+)`,
which then runs to the end of the string.  `none` means the regex failed
(nothing follows the tag). -/
def captureDotAllL (rest : List Char) : Option (List Char) :=
  if rest.isEmpty then none
  else some (rest.drop (min (rest.takeWhile isJsWS).length (rest.length - 1)))

/-- Capture group of the anchored regex `/^X:\s*(.+)/` (no `s` flag) applied
after the literal tag: `.` refuses line terminators, so the greedy `\s*`
backtracks until `(.+)` can start on a non-line-terminator character, and the
capture then runs to the next line terminator (or the end). -/
def captureLineL (rest : List Char) : Option (List Char) :=
  let w := (rest.takeWhile isJsWS).length
  if w < rest.length then
    some ((rest.drop w).takeWhile (fun c => !isLineTerm c))
  else
    -- rest is all whitespace: backtrack from the right for a non-terminator
    match rest.reverse.dropWhile isLineTerm with
    | [] => none
    | c :: _ => some [c]

/-! ## Intent parser (src/utils/parser.ts) -/

/-- The closed set of intent tags of `ParsedMessage.type`. -/
inductive MsgType where
  | scan
  | text
  | get
  | file
  | list
  | unknown
deriving DecidableEq, Repr

/-- `ParsedMessage` from src/types.ts. -/
structure ParsedMessage where
  type : MsgType
  prompt : Option String := none
  content : Option String := none
  path : Option String := none
deriving DecidableEq, Repr

/-- `parseMessage` from src/utils/parser.ts.  The tag tests mirror the
case-insensitive anchored regexes of the source; the captures keep the
original casing (only the copy handed to the regex engine is lower-cased by
the `i` flag). -/
def parseMessage (s : String) : ParsedMessage :=
  let trimmed := jsTrim s
  let lower := lowerStr trimmed
  if lower = "list" || lower = "/list" then
    { type := .list }
  else if strHasTag ("scan:") lower then
    match captureDotAllL (trimmed.data.drop 5) with
    | some cap =>
      let lines := jsSplitCharL '\n' cap
      let prompt := jsTrimL (lines.headD [])
      let content := jsTrimL (joinSepL '\n' (lines.drop 1))
      { type := .scan, prompt := some ⟨prompt⟩,
        content := if content.isEmpty then none else some ⟨content⟩ }
    | none => { type := .unknown }
  else if strHasTag ("text:") lower then
    match captureDotAllL (trimmed.data.drop 5) with
    | some cap => { type := .text, content := some ⟨jsTrimL cap⟩ }
    | none => { type := .unknown }
  else if strHasTag ("get:") lower then
    match captureLineL (trimmed.data.drop 4) with
    | some cap =>
      let path := jsTrimL cap
      { type := .get,
        path := some ⟨if path.headD ' ' = '/' then path else '/' :: path⟩ }
    | none => { type := .unknown }
  else if strHasTag ("file:") lower then
    match captureLineL (trimmed.data.drop 5) with
    | some cap =>
      let path := jsTrimL cap
      { type := .file,
        path := some ⟨if path.headD ' ' = '/' then path else '/' :: path⟩ }
    | none => { type := .unknown }
  else
    { type := .unknown }

/-- `isFileCaption` from src/utils/parser.ts. -/
def isFileCaption (s : String) : Bool :=
  let trimmed := jsTrim s
  let lower := lowerStr trimmed
  if strHasTag ("scan:") lower || strHasTag ("text:") lower ||
      strHasTag ("get:") lower || strHasTag ("file:") lower ||
      lower = "list" || strHasTag ("/") lower then
    false
  else
    decide (0 < trimmed.length) && decide (trimmed.length < 100)

/-- `sanitize` from src/utils/parser.ts: drop the angle brackets, trim, then
`slice(0, 1000)`. -/
def sanitize (s : String) : String :=
  ⟨(jsTrimL (s.data.filter (fun c => !(c = '<' || c = '>')))).take 1000⟩

/-! ## Encryption helpers (src/services/state.ts) -/

/-- One hex digit (lower case), as produced by `Buffer.prototype.toString('hex')`. -/
def hexDigit (n : Nat) : Char :=
  "0123456789abcdef".data.getD n '0'

/-- `Buffer.prototype.toString('hex')` on a byte list. -/
def bytesToHexL (l : List Nat) : List Char :=
  l.flatMap (fun b => [hexDigit (b / 16), hexDigit (b % 16)])

/-- `Buffer.prototype.toString('hex')`. -/
def bytesToHex (l : List Nat) : String :=
  ⟨bytesToHexL l⟩

/-- Value of one hex character (both cases accepted, as by `Buffer.from(_, 'hex')`). -/
def hexVal (c : Char) : Option Nat :=
  List.findIdx? (fun d => d = c.toLower) ("0123456789abcdef".data)

/-- `Buffer.from(_, 'hex')`: decode hex pairs, truncating at the first
invalid character or odd tail (Node does not throw on malformed hex). -/
def hexPairsL : List Char → List Nat
  | a :: b :: rest =>
    match hexVal a, hexVal b with
    | some x, some y => (16 * x + y) :: hexPairsL rest
    | _, _ => []
  | _ => []

/-- The `aes-256-cbc` primitive of `node:crypto` with the derived key baked
in — an external library, specified only at its interface (spec section 2
calls the cipher a sub-module keyed by a secret).  `enc iv text` is
`createCipheriv(...).update(text,'utf8','hex') + final('hex')`;
`dec iv hexCipher` is the corresponding decipher call, `none` standing for
a thrown error (corrupt ciphertext, bad padding).  The properties a real
cipher provides (decryption inverts encryption; the hex output contains no
colon) enter the theorems as explicit hypotheses. -/
structure CipherPrim where
  enc : List Nat → String → String
  dec : List Nat → String → Option String

/-- `encrypt` from src/services/state.ts: draw a fresh 16-byte IV (made an
explicit parameter here) and emit `iv.toString('hex') + ':' + ciphertext`
(the concatenation is written on the character lists). -/
def encrypt (C : CipherPrim) (iv : List Nat) (text : String) : String :=
  ⟨bytesToHexL iv ++ ':' :: (C.enc iv text).data⟩

/-- `decrypt` from src/services/state.ts: split on `':'`, hex-decode the IV,
decipher.  `none` models every throw of the source body (missing second
part, IV not 16 bytes after decoding, decipher failure). -/
def decrypt (C : CipherPrim) (s : String) : Option String :=
  match jsSplitCharL ':' s.data with
  | ivHex :: encTail :: _ =>
    let iv := hexPairsL ivHex
    if iv.length = 16 then C.dec iv ⟨encTail⟩ else none
  | _ => none

/-! ## Session store (src/services/state.ts) -/

/-- `UserSession` from src/types.ts. -/
structure UserSession where
  apiKey : Option String := none
  lastPrompt : Option String := none
  linkedAt : Option String := none
deriving DecidableEq, Repr

/-- The Keyv/SQLite store, modelled as a map from user id to the stored
record (whose `apiKey`, when present, is ciphertext). -/
abbrev KV := Nat → Option UserSession

/-- `getSession` from src/services/state.ts.  The `if (data.apiKey)`
truthiness test skips both an absent and an empty credential. -/
def getSession (C : CipherPrim) (kv : KV) (uid : Nat) : UserSession :=
  match kv uid with
  | none => {}
  | some data =>
    match data.apiKey with
    | some ek =>
      if ek = "" then data
      else
        match decrypt C ek with
        | some k => { data with apiKey := some k }
        | none => { data with apiKey := none }
    | none => data

/-- `saveSession` from src/services/state.ts (the IV drawn inside `encrypt`
is the explicit `iv` parameter). -/
def saveSession (C : CipherPrim) (iv : List Nat) (kv : KV) (uid : Nat)
    (session : UserSession) : KV :=
  let dataToSave :=
    match session.apiKey with
    | some k => if k = "" then session else { session with apiKey := some (encrypt C iv k) }
    | none => session
  fun u => if u = uid then some dataToSave else kv u

/-- A `Partial<UserSession>` argument: an outer `some` marks a field that is
present in the partial object (and overwrites on spread). -/
structure SessionUpdate where
  apiKey : Option (Option String) := none
  lastPrompt : Option (Option String) := none
  linkedAt : Option (Option String) := none

/-- The spread `\x7b ...current, ...updates \x7d` of `updateSession`. -/
def mergeSession (current : UserSession) (updates : SessionUpdate) : UserSession :=
  { apiKey := updates.apiKey.getD current.apiKey,
    lastPrompt := updates.lastPrompt.getD current.lastPrompt,
    linkedAt := updates.linkedAt.getD current.linkedAt }

/-- `updateSession` from src/services/state.ts: read, shallow-merge, persist;
returns the plaintext view and the new store. -/
def updateSession (C : CipherPrim) (iv : List Nat) (kv : KV) (uid : Nat)
    (updates : SessionUpdate) : UserSession × KV :=
  let current := getSession C kv uid
  let updated := mergeSession current updates
  (updated, saveSession C iv kv uid updated)

/-- `setApiKey` from src/services/state.ts: store the key and stamp
`linkedAt` with the current time (the clock is the explicit `now`). -/
def setApiKey (C : CipherPrim) (iv : List Nat) (kv : KV) (uid : Nat)
    (apiKey now : String) : KV :=
  (updateSession C iv kv uid
    { apiKey := some (some apiKey), linkedAt := some (some now) }).2

/-- `getApiKey` from src/services/state.ts. -/
def getApiKey (C : CipherPrim) (kv : KV) (uid : Nat) : Option String :=
  (getSession C kv uid).apiKey

/-- `setLastPrompt` from src/services/state.ts. -/
def setLastPrompt (C : CipherPrim) (iv : List Nat) (kv : KV) (uid : Nat)
    (prompt : String) : KV :=
  (updateSession C iv kv uid { lastPrompt := some (some prompt) }).2

/-- `getLastPrompt` from src/services/state.ts. -/
def getLastPrompt (C : CipherPrim) (kv : KV) (uid : Nat) : Option String :=
  (getSession C kv uid).lastPrompt

/-- `clearSession` from src/services/state.ts. -/
def clearSession (kv : KV) (uid : Nat) : KV :=
  fun u => if u = uid then none else kv u

/-- `hasApiKey` from src/services/state.ts (`!!session.apiKey`). -/
def hasApiKey (C : CipherPrim) (kv : KV) (uid : Nat) : Bool :=
  match (getSession C kv uid).apiKey with
  | some k => !(k = "")
  | none => false

/-- Concrete cipher primitive for the closed witness theorems: the identity
on the text (it satisfies the inverse and colon-free hypotheses at every
input the witnesses use). -/
def idCipher : CipherPrim :=
  ⟨fun _ t => t, fun _ t => some t⟩

/-- Concrete 16-byte IV for the closed witness theorems. -/
def ivZero : List Nat :=
  List.replicate 16 0

/-! ## Backend client result mappers (src/services/endpoints-api.ts)

The HTTP transport (`fetch`, `FormData`, URL construction) is an external
collaborator; each exported function takes the outcome of its one
`apiRequest` call as an `Except String _` parameter (`Except.error e`
standing for a thrown error whose message is `e`) and performs the
result-shaping the source performs.  The request an orchestrator handler
issues is recorded separately as a `BackendCall` value. -/

/-- JS `x || d` on an optional string: the default replaces both an absent
and an empty (falsy) value. -/
def jsOr (o : Option String) (d : String) : String :=
  match o with
  | some s => if s = "" then d else s
  | none => d

/-- The `endpoint` object of a scan response. -/
structure EndpointInfo where
  path : String
  category : String
  slug : String
deriving DecidableEq, Repr

/-- One metadata entry of a scan / endpoint-data response (entity records
are modelled as association lists of rendered values). -/
structure ItemData where
  summary : Option String := none
  createdAt : Option String := none
  entities : Option (List (String × String)) := none
deriving DecidableEq, Repr

/-- The `item` of a successful `ScanResult`. -/
structure ItemInfo where
  id : String
  title : String
  entities : List (String × String)
deriving DecidableEq, Repr

/-- `ScanResult` from src/types.ts. -/
structure ScanResult where
  success : Bool
  endpoint : Option EndpointInfo := none
  item : Option ItemInfo := none
  error : Option String := none
deriving DecidableEq, Repr

/-- Parsed JSON body of a successful `/api/scan` response:
`result.endpoint` and `result.metadata.newMetadata` (an object, modelled as
an association list in key order; an absent `metadata` is the empty list,
matching `result.metadata?.newMetadata || \x7b\x7d`). -/
structure ScanResponse where
  endpoint : EndpointInfo
  newMetadata : List (String × ItemData)
deriving DecidableEq, Repr

/-- `scanText` from src/services/endpoints-api.ts: on success extract the
first `newMetadata` item, on a thrown error return the uniform failure
record. -/
def scanText (outcome : Except String ScanResponse) : ScanResult :=
  match outcome with
  | .error e => { success := false, error := some e }
  | .ok result =>
    match result.newMetadata.head? with
    | some (itemId, itemData) =>
      { success := true, endpoint := some result.endpoint,
        item := some ⟨itemId, jsOr itemData.summary ("Scanned item"),
                      itemData.entities.getD []⟩ }
    | none => { success := true, endpoint := some result.endpoint, item := none }

/-- `scanFile` from src/services/endpoints-api.ts: identical result shaping
to `scanText` (the file payload, and the `options` argument that the spec's
collaborator contract gives `scanFile`, live in the request, recorded as a
`BackendCall` at the call sites). -/
def scanFile (outcome : Except String ScanResponse) : ScanResult :=
  match outcome with
  | .error e => { success := false, error := some e }
  | .ok result =>
    match result.newMetadata.head? with
    | some (itemId, itemData) =>
      { success := true, endpoint := some result.endpoint,
        item := some ⟨itemId, jsOr itemData.summary ("Scanned item"),
                      itemData.entities.getD []⟩ }
    | none => { success := true, endpoint := some result.endpoint, item := none }

/-- One endpoint of the `/api/endpoints/tree` response. -/
structure TreeEndpoint where
  id : Nat := 0
  path : String
  slug : String
  itemCount : Option Nat := none
deriving DecidableEq, Repr

/-- One category of the `/api/endpoints/tree` response (`endpoints` may be
absent: `category.endpoints || []`). -/
structure TreeCategory where
  name : String
  endpoints : Option (List TreeEndpoint) := none
deriving DecidableEq, Repr

/-- Parsed JSON body of `/api/endpoints/tree` (`categories` may be absent:
`result.categories || []`). -/
structure TreeResponse where
  categories : Option (List TreeCategory) := none
deriving DecidableEq, Repr

/-- `EndpointListItem` from src/types.ts, as populated by `listEndpoints`. -/
structure EndpointListItem where
  path : String
  category : String
  slug : String
  itemCount : Nat
deriving DecidableEq, Repr

/-- `listEndpoints` from src/services/endpoints-api.ts: flatten the category
tree; a thrown error yields the EMPTY LIST (not a failure record). -/
def listEndpoints (outcome : Except String TreeResponse) : List EndpointListItem :=
  match outcome with
  | .error _ => []
  | .ok result =>
    (result.categories.getD []).flatMap (fun category =>
      (category.endpoints.getD []).map (fun ep =>
        ⟨ep.path, category.name, ep.slug, ep.itemCount.getD 0⟩))

/-- One item of `EndpointDataResult.data.items`. -/
structure EndpointItem where
  id : String
  title : String
  createdAt : String
  entities : List (String × String)
deriving DecidableEq, Repr

/-- `EndpointDataResult.data` from src/types.ts. -/
structure EndpointData where
  path : String
  items : List EndpointItem
  totalItems : Nat
deriving DecidableEq, Repr

/-- `EndpointDataResult` from src/types.ts. -/
structure EndpointDataResult where
  success : Bool
  data : Option EndpointData := none
  error : Option String := none
deriving DecidableEq, Repr

/-- Parsed JSON body of a successful endpoint-data request:
`result.endpoint?.path` (optional), the two metadata objects, and
`result.totalItems` (0 models a falsy/absent count). -/
structure GetResponse where
  endpointPath : Option String := none
  oldMetadata : List (String × ItemData) := []
  newMetadata : List (String × ItemData) := []
  totalItems : Nat := 0
deriving DecidableEq, Repr

/-- The object spread `\x7b ...old, ...new \x7d` on two objects with unique
keys: keys of `old` in order (values overridden by `new` where shared),
then the new-only keys in order. -/
def jsSpreadMerge (old new : List (String × ItemData)) : List (String × ItemData) :=
  old.map (fun p =>
    match new.find? (fun q => q.1 = p.1) with
    | some q => q
    | none => p) ++
  new.filter (fun q => !(old.any (fun p => p.1 = q.1)))

/-- `getEndpoint` from src/services/endpoints-api.ts: merge the metadata
objects into an item array and shape the result; a thrown error yields the
uniform failure record.  (The `/api/endpoints` path normalization only
feeds the request URL, which is external.) -/
def getEndpoint (path : String) (outcome : Except String GetResponse) : EndpointDataResult :=
  match outcome with
  | .error e => { success := false, error := some e }
  | .ok result =>
    let items := (jsSpreadMerge result.oldMetadata result.newMetadata).map (fun p =>
      ⟨p.1, jsOr p.2.summary ("Item"), jsOr p.2.createdAt (""),
       p.2.entities.getD []⟩)
    { success := true,
      data := some ⟨jsOr result.endpointPath path, items,
                    if result.totalItems = 0 then items.length else result.totalItems⟩ }

/-! ## Conversation orchestrator (src/handlers/messages.ts, src/handlers/files.ts) -/

/-- JS truthiness of an optional string (`if (!x)`): `none` when absent or
empty. -/
def truthyS (o : Option String) : Option String :=
  match o with
  | some s => if s = "" then none else some s
  | none => none

/-- The `options` argument the messages handler passes to `scanFile`
(spec section 6 collaborator contract). -/
structure ScanOptions where
  isClawdbotTranscript : Bool
deriving DecidableEq, Repr

/-- One user-visible reply, identified by the formatter the handler feeds to
`ctx.reply` together with the typed value it formats (presentation is an
out-of-scope collaborator, spec section 6). -/
inductive Reply where
  | missingApiKey
  | endpointsList (endpoints : List EndpointListItem)
  | scanReply (result : ScanResult)
  | promptSet (prompt : String)
  | noPromptSet
  | endpointData (result : EndpointDataResult)
  | fileComingSoon (path : String)
  | unknownCommand
  | fileTooLarge
  | captionNeeded
  | failedToProcess (message : String)
  | imageTooLarge
  | failedToProcessPhoto (message : String)
  | expiredFile
deriving DecidableEq, Repr

/-- One request issued to the backend collaborator. -/
inductive BackendCall where
  | scanTextCall (apiKey prompt text : String)
  | scanFileCall (apiKey prompt : String) (buffer : List Nat)
      (filename mimeType : String) (options : Option ScanOptions)
  | listCall (apiKey : String)
  | getCall (apiKey path : String)
deriving DecidableEq, Repr

/-- `handleListMessage` from src/handlers/messages.ts. -/
def handleListMessage (C : CipherPrim) (kv : KV) (uid : Nat)
    (outcome : Except String TreeResponse) : List Reply :=
  match truthyS (getApiKey C kv uid) with
  | none => [.missingApiKey]
  | some _ => [.endpointsList (listEndpoints outcome)]

/-- `handleScanMessage` from src/handlers/messages.ts. -/
def handleScanMessage (C : CipherPrim) (iv : List Nat) (kv : KV) (uid : Nat)
    (prompt : String) (content : Option String)
    (outcome : Except String ScanResponse) : List Reply × KV :=
  match truthyS (getApiKey C kv uid) with
  | none => ([.missingApiKey], kv)
  | some _ =>
    let sanitizedPrompt := sanitize prompt
    let kv1 := setLastPrompt C iv kv uid sanitizedPrompt
    if content.getD ("") = ("") then ([.promptSet sanitizedPrompt], kv1)
    else ([.scanReply (scanText outcome)], kv1)

/-- `handleTextScanMessage` from src/handlers/messages.ts. -/
def handleTextScanMessage (C : CipherPrim) (kv : KV) (uid : Nat)
    (outcome : Except String ScanResponse) : List Reply :=
  match truthyS (getApiKey C kv uid) with
  | none => [.missingApiKey]
  | some _ =>
    match truthyS (getLastPrompt C kv uid) with
    | none => [.noPromptSet]
    | some _ => [.scanReply (scanText outcome)]

/-- `handleGetMessage` from src/handlers/messages.ts. -/
def handleGetMessage (C : CipherPrim) (kv : KV) (uid : Nat) (path : String)
    (outcome : Except String GetResponse) : List Reply :=
  match truthyS (getApiKey C kv uid) with
  | none => [.missingApiKey]
  | some _ => [.endpointData (getEndpoint path outcome)]

/-- `handleFileGetMessage` from src/handlers/messages.ts. -/
def handleFileGetMessage (C : CipherPrim) (kv : KV) (uid : Nat)
    (path : String) : List Reply :=
  match truthyS (getApiKey C kv uid) with
  | none => [.missingApiKey]
  | some _ => [.fileComingSoon path]

/-- `handleUnknownMessage` from src/handlers/messages.ts. -/
def handleUnknownMessage : List Reply :=
  [.unknownCommand]

/-- `PendingFile`: ephemeral holder for an uploaded file awaiting the
yes/no processing decision (spec section 3; the holder's record type is not
in the src snapshot, so the field list follows the spec's words: buffer of
raw bytes, prompt, filename, mimeType). -/
structure PendingFile where
  buffer : List Nat
  prompt : String
  filename : String
  mimeType : String
deriving DecidableEq, Repr

/-- The pending-file store, keyed by user id. -/
abbrev PKV := Nat → Option PendingFile

/-- Modelled from the spec: `getPendingFile` of src/services/state.ts is
imported by src/handlers/messages.ts but missing from the src snapshot
(the snapshot's state.ts predates the pending-file feature).  Spec
section 3: the PendingFile is "consumed (read once) and deleted when the
decision arrives", so the read returns the holder and deletes it. -/
def getPendingFile (pkv : PKV) (uid : Nat) : Option PendingFile × PKV :=
  (pkv uid, fun u => if u = uid then none else pkv u)

/-- The `openclaw:` branch of `handleCallbackQuery` from
src/handlers/messages.ts (reached for every callback payload starting with
`openclaw:`). -/
def handleOpenclawCallback (C : CipherPrim) (kv : KV) (pkv : PKV) (uid : Nat)
    (data : String) (outcome : Except String ScanResponse) :
    List Reply × List BackendCall × PKV :=
  let isOpenClaw := data = "openclaw:yes"
  let consumed := getPendingFile pkv uid
  match consumed.1 with
  | none => ([.expiredFile], [], consumed.2)
  | some pendingFile =>
    match truthyS (getApiKey C kv uid) with
    | none => ([.missingApiKey], [], consumed.2)
    | some apiKey =>
      let result := scanFile outcome
      ([.scanReply result],
       [.scanFileCall apiKey pendingFile.prompt pendingFile.buffer
          pendingFile.filename pendingFile.mimeType (some ⟨isOpenClaw⟩)],
       consumed.2)

/-- `MAX_FILE_SIZE` from src/handlers/files.ts (10 MB). -/
def MAX_FILE_SIZE : Nat :=
  10 * 1024 * 1024

/-- The fields of the incoming Telegram document the handler reads. -/
structure DocumentInfo where
  file_size : Option Nat := none
  file_name : Option String := none
  mime_type : Option String := none
deriving DecidableEq, Repr

/-- The body of the `try` block of `handleDocument`: download the file
(`download` is the outcome of `ctx.getFile()` + `file.download()`, whose
throw the catch turns into a failure reply) and scan it. -/
def documentScanStep (apiKey prompt : String) (kv1 : KV) (document : DocumentInfo)
    (download : Except String (List Nat)) (outcome : Except String ScanResponse) :
    List Reply × List BackendCall × KV :=
  match download with
  | .error e => ([.failedToProcess e], [], kv1)
  | .ok buffer =>
    let filename := jsOr document.file_name ("document")
    let mimeType := jsOr document.mime_type ("application/octet-stream")
    ([.scanReply (scanFile outcome)],
     [.scanFileCall apiKey prompt buffer filename mimeType none], kv1)

/-- `handleDocument` from src/handlers/files.ts: missing-key short circuit,
the reported-size check, caption/last-prompt resolution, then the download
and scan. -/
def handleDocument (C : CipherPrim) (iv : List Nat) (kv : KV) (uid : Nat)
    (document : DocumentInfo) (caption : Option String)
    (download : Except String (List Nat)) (outcome : Except String ScanResponse) :
    List Reply × List BackendCall × KV :=
  match truthyS (getApiKey C kv uid) with
  | none => ([.missingApiKey], [], kv)
  | some apiKey =>
    if document.file_size.getD 0 ≠ 0 ∧ MAX_FILE_SIZE < document.file_size.getD 0 then
      ([.fileTooLarge], [], kv)
    else
      let resolved :=
        match truthyS (caption.map jsTrim) with
        | some c =>
          if isFileCaption c then
            let p := sanitize c
            (some p, setLastPrompt C iv kv uid p)
          else (getLastPrompt C kv uid, kv)
        | none => (getLastPrompt C kv uid, kv)
      match truthyS resolved.1 with
      | none => ([.captionNeeded], [], resolved.2)
      | some prompt => documentScanStep apiKey prompt resolved.2 document download outcome

/-- The fields of one entry of the incoming Telegram photo-size array the
handler reads (`file_id` only feeds the download request, which is the
external `download` outcome). -/
structure PhotoInfo where
  file_size : Option Nat := none
deriving DecidableEq, Repr

/-- `handlePhoto` from src/handlers/files.ts: an empty photo array returns
without replying; then the missing-key short circuit, the reported-size
check on the LARGEST size entry (the last array element), caption/last-
prompt resolution, and the download (`ctx.api.getFile` + `fetch`, whose
throw — including the synthesized not-ok error — the catch turns into a
failure reply) and scan.  The filename and mime type of the request are
synthesized (`photo_<Date.now()>.jpg`, `image/jpeg`), with the clock an
explicit `now` parameter. -/
def handlePhoto (C : CipherPrim) (iv : List Nat) (kv : KV) (uid : Nat)
    (photos : List PhotoInfo) (caption : Option String) (now : Nat)
    (download : Except String (List Nat)) (outcome : Except String ScanResponse) :
    List Reply × List BackendCall × KV :=
  match photos.getLast? with
  | none => ([], [], kv)
  | some photo =>
    match truthyS (getApiKey C kv uid) with
    | none => ([.missingApiKey], [], kv)
    | some apiKey =>
      if photo.file_size.getD 0 ≠ 0 ∧ MAX_FILE_SIZE < photo.file_size.getD 0 then
        ([.imageTooLarge], [], kv)
      else
        let resolved :=
          match truthyS (caption.map jsTrim) with
          | some c =>
            if isFileCaption c then
              let p := sanitize c
              (some p, setLastPrompt C iv kv uid p)
            else (getLastPrompt C kv uid, kv)
          | none => (getLastPrompt C kv uid, kv)
        match truthyS resolved.1 with
        | none => ([.captionNeeded], [], resolved.2)
        | some prompt =>
          match download with
          | .error e => ([.failedToProcessPhoto e], [], resolved.2)
          | .ok buffer =>
            ([.scanReply (scanFile outcome)],
             [.scanFileCall apiKey prompt buffer
                ("photo_" ++ toString now ++ ".jpg") ("image/jpeg") none],
             resolved.2)

/-! ## Claim-statement definitions and witness fixtures -/

/-- The grammar-rule match test of `parseMessage`, rule by rule: the `list`
equality test and the four tag regexes (a tag rule matches when the tag is
present and its capture succeeds).  `parseMessage` must classify every
input on which this is `false` as `unknown`. -/
def matchesAnyRule (s : String) : Bool :=
  let trimmed := jsTrim s
  let lower := lowerStr trimmed
  (decide (lower = "list") || decide (lower = "/list")) ||
  (strHasTag ("scan:") lower && (captureDotAllL (trimmed.data.drop 5)).isSome) ||
  (strHasTag ("text:") lower && (captureDotAllL (trimmed.data.drop 5)).isSome) ||
  (strHasTag ("get:") lower && (captureLineL (trimmed.data.drop 4)).isSome) ||
  (strHasTag ("file:") lower && (captureLineL (trimmed.data.drop 5)).isSome)

/-- Follows the words of claim C5 (spec section 4.1 rule 2), for comparison
with the source: "everything after the prefix is split on the first
newline: first line (trimmed) is prompt; remaining lines (trimmed as a
block, preserving internal newlines) become content if non-empty, else
content is absent". -/
def claimScanParse (s : String) : ParsedMessage :=
  let trimmed := jsTrim s
  let rest := trimmed.data.drop 5
  let firstLine := rest.takeWhile (fun c => !(c = '\n'))
  let body := rest.drop (firstLine.length + 1)
  let content := jsTrimL body
  { type := .scan, prompt := some ⟨jsTrimL firstLine⟩,
    content := if content.isEmpty then none else some ⟨content⟩ }

/-- The text following the `scan:` tag of a trimmed message. -/
def scanRemainder (s : String) : List Char :=
  (jsTrim s).data.drop 5

/-- What the scan regex actually captures: the remainder with ALL leading
whitespace (newlines included) consumed by the greedy `\s*`. -/
def scanAfterWs (s : String) : List Char :=
  (scanRemainder s).dropWhile isJsWS

/-- The captured text up to its first newline. -/
def scanFirstLine (s : String) : List Char :=
  (scanAfterWs s).takeWhile (fun c => !(c = '\n'))

/-- The captured text strictly after its first newline (empty when there is
no newline); a verbatim contiguous substring, interior newlines kept. -/
def scanBody (s : String) : List Char :=
  (scanAfterWs s).drop ((scanFirstLine s).length + 1)

/-- Witness store: one empty record slot everywhere. -/
def kvEmpty : KV :=
  fun _ => none

/-- Witness store: user 7 holds a record whose stored credential is not in
the `iv:ciphertext` shape (decryption of it throws). -/
def kvCorrupt : KV :=
  fun u =>
    if u = 7 then
      some { apiKey := some ("deadbeef"), lastPrompt := some ("job tracker"),
             linkedAt := some ("2024-01-01T00:00:00Z") }
    else none

/-- Witness store: user 7 was linked at a known past instant and holds no
credential. -/
def kvLinked : KV :=
  fun u =>
    if u = 7 then some { linkedAt := some ("2024-01-01T00:00:00Z") }
    else none

/-- Witness store: user 7 holds a working (idCipher-encrypted) credential. -/
def kvKeyed : KV :=
  fun u =>
    if u = 7 then some { apiKey := some (encrypt idCipher ivZero ("ep_stored_key_123")) }
    else none

/-- Witness input for the sanitize idempotence counterexample: 999 letters,
a space, one letter — its sanitized form is cut at the space. -/
def sanitizeCexInput : String :=
  ⟨List.replicate 999 'a' ++ [' ', 'b']⟩

/-- Witness pending file. -/
def pfWitness : PendingFile :=
  { buffer := [37, 80, 68, 70], prompt := "job tracker",
    filename := "resume.pdf", mimeType := "application/pdf" }

/-- Witness pending-file store: user 7 has a file awaiting the decision. -/
def pkvPending : PKV :=
  fun u => if u = 7 then some pfWitness else none

/-! ## Supporting lemmas -/

theorem strEta (s : String) : (⟨s.data⟩ : String) = s := by
  cases s
  rfl

theorem jsTrimL_eq_rdrop (l : List Char) :
    jsTrimL l = List.rdropWhile isJsWS (l.dropWhile isJsWS) :=
  rfl

theorem jsTrimL_getLast_not_ws (l : List Char) (c : Char)
    (h : (jsTrimL l).getLast? = some c) : isJsWS c = false := by
  have hne : jsTrimL l ≠ [] := by
    intro he
    rw [he] at h
    simp at h
  have h2 : (jsTrimL l).getLast hne = c := by
    rw [List.getLast?_eq_getLast_of_ne_nil hne] at h
    exact Option.some.inj h
  rw [← h2]
  have h3 := List.rdropWhile_last_not isJsWS (l.dropWhile isJsWS) hne
  simpa using h3

theorem exists_nonWS_of_drop_trim (l : List Char) (n : Nat)
    (h : (jsTrimL l).drop n ≠ []) :
    ∃ c ∈ (jsTrimL l).drop n, isJsWS c = false := by
  have hne : jsTrimL l ≠ [] := by
    intro he
    rw [he] at h
    simp at h
  refine ⟨((jsTrimL l).drop n).getLast h, List.getLast_mem h, ?_⟩
  apply jsTrimL_getLast_not_ws l
  rw [List.getLast_drop h]
  exact List.getLast?_eq_getLast_of_ne_nil hne

theorem drop_takeWhile_length (p : Char → Bool) (l : List Char) :
    l.drop (l.takeWhile p).length = l.dropWhile p := by
  induction l with
  | nil => simp
  | cons a t ih =>
    by_cases h : p a <;> simp [List.takeWhile_cons, List.dropWhile_cons, h, ih]

theorem captureDotAllL_of_exists (rest : List Char)
    (h : ∃ c ∈ rest, isJsWS c = false) :
    captureDotAllL rest = some (rest.dropWhile isJsWS) := by
  obtain ⟨c, hc, hcw⟩ := h
  have hne : rest ≠ [] := by
    intro he
    rw [he] at hc
    simp at hc
  have hlt : (rest.takeWhile isJsWS).length < rest.length := by
    have hpre : rest.takeWhile isJsWS <+: rest := List.takeWhile_prefix isJsWS
    rcases Nat.lt_or_ge (rest.takeWhile isJsWS).length rest.length with h' | h'
    · exact h'
    · exfalso
      have heq : rest.takeWhile isJsWS = rest :=
        hpre.eq_of_length (Nat.le_antisymm hpre.length_le h')
      have : isJsWS c = true := by
        apply List.mem_takeWhile_imp
        rw [heq]
        exact hc
      rw [hcw] at this
      exact Bool.false_ne_true this
  have hmin : min (rest.takeWhile isJsWS).length (rest.length - 1)
      = (rest.takeWhile isJsWS).length := by omega
  simp only [captureDotAllL]
  rw [if_neg (by simp [hne]), hmin, drop_takeWhile_length]

theorem jsSplitCharL_ne_nil (sep : Char) (l : List Char) :
    jsSplitCharL sep l ≠ [] := by
  cases l with
  | nil => simp [jsSplitCharL]
  | cons c rest =>
    by_cases h : c = sep
    · simp [jsSplitCharL, h]
    · simp only [jsSplitCharL, if_neg h]
      rcases he : jsSplitCharL sep rest with _ | ⟨a, t⟩ <;> simp

theorem jsSplitCharL_sepFree (sep : Char) (l : List Char)
    (h : ∀ c ∈ l, c ≠ sep) : jsSplitCharL sep l = [l] := by
  induction l with
  | nil => rfl
  | cons c rest ih =>
    have hc : c ≠ sep := h c (by simp)
    have hrest := ih (fun x hx => h x (by simp [hx]))
    simp only [jsSplitCharL, if_neg hc, hrest]

theorem jsSplitCharL_append (sep : Char) (a b : List Char)
    (ha : ∀ c ∈ a, c ≠ sep) :
    jsSplitCharL sep (a ++ sep :: b) = a :: jsSplitCharL sep b := by
  induction a with
  | nil => simp [jsSplitCharL]
  | cons c rest ih =>
    have hc : c ≠ sep := ha c (by simp)
    have hrest := ih (fun x hx => ha x (by simp [hx]))
    simp only [List.cons_append, jsSplitCharL, if_neg hc]
    rw [show rest.append (sep :: b) = rest ++ sep :: b from rfl, hrest]

theorem hexDigit_mem_or_zero (n : Nat) :
    hexDigit n ∈ "0123456789abcdef".data ∨ hexDigit n = '0' := by
  unfold hexDigit
  rcases h : ("0123456789abcdef".data)[n]? with _ | c
  · right
    simp [List.getD, h]
  · left
    have hm : c ∈ "0123456789abcdef".data := by
      obtain ⟨hlt, he⟩ := List.getElem?_eq_some.mp h
      exact he ▸ List.getElem_mem hlt
    simpa [List.getD, h] using hm

theorem hexDigit_ne_colon (n : Nat) : hexDigit n ≠ ':' := by
  rcases hexDigit_mem_or_zero n with h | h
  · intro he
    rw [he] at h
    revert h
    decide
  · rw [h]
    decide

theorem bytesToHexL_colonFree (l : List Nat) :
    ∀ c ∈ bytesToHexL l, c ≠ ':' := by
  intro c hc
  simp only [bytesToHexL, List.mem_flatMap] at hc
  obtain ⟨b, _, hb⟩ := hc
  simp only [List.mem_cons, List.mem_singleton, List.not_mem_nil, or_false] at hb
  rcases hb with h | h <;> (rw [h]; exact hexDigit_ne_colon _)

theorem hexVal_hexDigit (n : Nat) (h : n < 16) :
    hexVal (hexDigit n) = some n := by
  interval_cases n <;> decide

theorem hexPairsL_bytesToHexL (l : List Nat) (hb : ∀ b ∈ l, b < 256) :
    hexPairsL (bytesToHexL l) = l := by
  induction l with
  | nil => rfl
  | cons b t ih =>
    have hblt : b < 256 := hb b (by simp)
    have hdiv : b / 16 < 16 := by omega
    have hmod : b % 16 < 16 := Nat.mod_lt _ (by omega)
    have ht := ih (fun x hx => hb x (by simp [hx]))
    simp only [bytesToHexL, List.flatMap_cons, List.cons_append, List.nil_append,
      hexPairsL, hexVal_hexDigit _ hdiv, hexVal_hexDigit _ hmod]
    rw [show (16 * (b / 16) + b % 16) = b from by omega]
    show b :: hexPairsL (bytesToHexL t) = b :: t
    rw [ht]

theorem bytesToHexL_inj (iv1 iv2 : List Nat)
    (hb1 : ∀ b ∈ iv1, b < 256) (hb2 : ∀ b ∈ iv2, b < 256)
    (h : bytesToHexL iv1 = bytesToHexL iv2) : iv1 = iv2 := by
  rw [← hexPairsL_bytesToHexL iv1 hb1, ← hexPairsL_bytesToHexL iv2 hb2, h]

theorem decrypt_encrypt (C : CipherPrim) (iv : List Nat) (t : String)
    (hiv : iv.length = 16) (hb : ∀ b ∈ iv, b < 256)
    (hcf : ∀ ch ∈ (C.enc iv t).data, ch ≠ ':')
    (hrt : C.dec iv (C.enc iv t) = some t) :
    decrypt C (encrypt C iv t) = some t := by
  unfold decrypt encrypt
  rw [show (String.mk (bytesToHexL iv ++ ':' :: (C.enc iv t).data)).data
      = bytesToHexL iv ++ ':' :: (C.enc iv t).data from rfl]
  rw [jsSplitCharL_append ':' _ _ (bytesToHexL_colonFree iv),
    jsSplitCharL_sepFree ':' _ hcf]
  simp only [hexPairsL_bytesToHexL iv hb, hiv, if_true, strEta]
  exact hrt

theorem dropWhile_cons_head (p : Char → Bool) (m : List Char) (c : Char)
    (rest : List Char) (h : m.dropWhile p = c :: rest) : p c = false := by
  induction m with
  | nil => cases h
  | cons a t ih =>
    by_cases hp : p a
    · rw [List.dropWhile_cons, if_pos hp] at h
      exact ih h
    · rw [List.dropWhile_cons, if_neg hp] at h
      cases h
      simpa using hp

theorem jsTrimL_head_not_ws (l : List Char) (c : Char)
    (h : (jsTrimL l).head? = some c) : isJsWS c = false := by
  rcases he : jsTrimL l with _ | ⟨d, rest⟩
  · rw [he] at h
    cases h
  · rw [he] at h
    have hcc : d = c := by simpa using h
    have hpre : jsTrimL l <+: l.dropWhile isJsWS :=
      List.rdropWhile_prefix isJsWS (l.dropWhile isJsWS)
    rw [he] at hpre
    obtain ⟨t, ht⟩ := hpre
    have hd : l.dropWhile isJsWS = d :: (rest ++ t) := by
      rw [← ht]
      simp
    have hres := dropWhile_cons_head isJsWS l d (rest ++ t) hd
    rwa [hcc] at hres

theorem jsTrimL_idem (l : List Char) : jsTrimL (jsTrimL l) = jsTrimL l := by
  have h1 : (jsTrimL l).dropWhile isJsWS = jsTrimL l := by
    rcases he : jsTrimL l with _ | ⟨c, rest⟩
    · rfl
    · have hc : isJsWS c = false := by
        apply jsTrimL_head_not_ws l
        rw [he]
        rfl
      simp [List.dropWhile_cons, hc]
  have h2 : List.rdropWhile isJsWS (jsTrimL l) = jsTrimL l := by
    rw [List.rdropWhile_eq_self_iff]
    intro hl
    have := jsTrimL_getLast_not_ws l ((jsTrimL l).getLast hl)
      (List.getLast?_eq_getLast_of_ne_nil hl)
    simp [this]
  rw [jsTrimL_eq_rdrop (jsTrimL l), h1, h2]

theorem mem_of_mem_jsTrimL (l : List Char) (c : Char) (h : c ∈ jsTrimL l) :
    c ∈ l := by
  unfold jsTrimL at h
  rw [List.mem_reverse] at h
  have h2 := (List.dropWhile_suffix isJsWS).mem h
  rw [List.mem_reverse] at h2
  exact (List.dropWhile_suffix isJsWS).mem h2

theorem joinSepL_jsSplitCharL (sep : Char) (l : List Char) :
    joinSepL sep (jsSplitCharL sep l) = l := by
  induction l with
  | nil => rfl
  | cons c rest ih =>
    by_cases h : c = sep
    · rcases he : jsSplitCharL sep rest with _ | ⟨b, t2⟩
      · exact absurd he (jsSplitCharL_ne_nil sep rest)
      · rw [he] at ih
        rw [h]
        simp only [jsSplitCharL, if_pos rfl, he]
        show sep :: joinSepL sep (b :: t2) = sep :: rest
        rw [ih]
    · rcases he : jsSplitCharL sep rest with _ | ⟨h0, t0⟩
      · exact absurd he (jsSplitCharL_ne_nil sep rest)
      · rw [he] at ih
        simp only [jsSplitCharL, if_neg h, he]
        cases t0 with
        | nil =>
          show c :: h0 = c :: rest
          simp only [joinSepL] at ih
          rw [ih]
        | cons b t1 =>
          show c :: joinSepL sep (h0 :: b :: t1) = c :: rest
          rw [ih]

theorem jsSplitCharL_headD (sep : Char) (l : List Char) :
    (jsSplitCharL sep l).headD [] = l.takeWhile (fun c => !(c = sep)) := by
  induction l with
  | nil => rfl
  | cons c rest ih =>
    by_cases h : c = sep
    · subst h
      simp [jsSplitCharL, List.takeWhile_cons]
    · rcases he : jsSplitCharL sep rest with _ | ⟨h0, t0⟩
      · exact absurd he (jsSplitCharL_ne_nil sep rest)
      · rw [he] at ih
        simp only [jsSplitCharL, if_neg h, he, List.takeWhile_cons]
        simp only [List.headD_cons] at ih ⊢
        simp [h, ih]

theorem jsSplitCharL_drop_join (sep : Char) (l : List Char) :
    joinSepL sep ((jsSplitCharL sep l).drop 1)
      = l.drop ((l.takeWhile (fun c => !(c = sep))).length + 1) := by
  induction l with
  | nil => rfl
  | cons c rest ih =>
    by_cases h : c = sep
    · subst h
      simp [jsSplitCharL, List.takeWhile_cons, joinSepL_jsSplitCharL]
    · rcases he : jsSplitCharL sep rest with _ | ⟨h0, t0⟩
      · exact absurd he (jsSplitCharL_ne_nil sep rest)
      · rw [he] at ih
        simp only [jsSplitCharL, if_neg h, he, List.takeWhile_cons]
        simp only [List.drop_succ_cons, List.drop_zero] at ih ⊢
        simp [h, ih]

/-! ## Claim theorems -/

/-- C1: for every input string, `parseMessage` terminates with exactly one
of the six intent variants (it is a total function into the closed
`MsgType`), and every string matching no grammar rule yields the `unknown`
variant. -/
theorem parseMessage_total_and_unknown_fallback (s : String) :
    ((parseMessage s).type = MsgType.list ∨ (parseMessage s).type = MsgType.scan ∨
     (parseMessage s).type = MsgType.text ∨ (parseMessage s).type = MsgType.get ∨
     (parseMessage s).type = MsgType.file ∨ (parseMessage s).type = MsgType.unknown) ∧
    (matchesAnyRule s = false → parseMessage s = { type := MsgType.unknown }) := by
  constructor
  · cases h : (parseMessage s).type <;> simp
  · intro h
    simp only [matchesAnyRule, Bool.or_eq_false_iff, Bool.and_eq_false_iff,
      decide_eq_false_iff_not] at h
    obtain ⟨⟨⟨⟨⟨hA1, hA2⟩, hB⟩, hC⟩, hD⟩, hE⟩ := h
    simp only [parseMessage]
    rw [if_neg (by simp [hA1, hA2])]
    by_cases hs : strHasTag ("scan:") (lowerStr (jsTrim s)) = true
    · have hcap : (captureDotAllL ((jsTrim s).data.drop 5)).isSome = false := by
        rcases hB with h' | h'
        · exact absurd hs (by simp [h'])
        · exact h'
      rw [if_pos hs]
      rcases hc : captureDotAllL ((jsTrim s).data.drop 5) with _ | cap
      · simp
      · rw [hc] at hcap
        simp at hcap
    · rw [if_neg hs]
      by_cases ht : strHasTag ("text:") (lowerStr (jsTrim s)) = true
      · have hcap : (captureDotAllL ((jsTrim s).data.drop 5)).isSome = false := by
          rcases hC with h' | h'
          · exact absurd ht (by simp [h'])
          · exact h'
        rw [if_pos ht]
        rcases hc : captureDotAllL ((jsTrim s).data.drop 5) with _ | cap
        · simp
        · rw [hc] at hcap
          simp at hcap
      · rw [if_neg ht]
        by_cases hg : strHasTag ("get:") (lowerStr (jsTrim s)) = true
        · have hcap : (captureLineL ((jsTrim s).data.drop 4)).isSome = false := by
            rcases hD with h' | h'
            · exact absurd hg (by simp [h'])
            · exact h'
          rw [if_pos hg]
          rcases hc : captureLineL ((jsTrim s).data.drop 4) with _ | cap
          · simp
          · rw [hc] at hcap
            simp at hcap
        · rw [if_neg hg]
          by_cases hf : strHasTag ("file:") (lowerStr (jsTrim s)) = true
          · have hcap : (captureLineL ((jsTrim s).data.drop 5)).isSome = false := by
              rcases hE with h' | h'
              · exact absurd hf (by simp [h'])
              · exact h'
            rw [if_pos hf]
            rcases hc : captureLineL ((jsTrim s).data.drop 5) with _ | cap
            · simp
            · rw [hc] at hcap
              simp at hcap
          · rw [if_neg hf]

/-- Witness for C1 at the concrete unrecognized input of the test suite. -/
theorem parseMessage_total_and_unknown_fallback_w :
    matchesAnyRule ("hello there") = false ∧
    parseMessage ("hello there") = { type := MsgType.unknown } :=
  ⟨by decide, (parseMessage_total_and_unknown_fallback ("hello there")).2 (by decide)⟩

set_option maxRecDepth 4000 in
/-- C4 counterexample: `sanitize` is NOT idempotent.  On 999 letters, a
space and a letter, the first pass truncates right after the space, and the
second pass trims that exposed trailing space away, so the results differ
(length 1000 against 999). -/
theorem sanitize_not_idempotent_cex :
    sanitize (sanitize sanitizeCexInput) ≠ sanitize sanitizeCexInput := by
  decide

/-- C4 amended: `sanitize` removes exactly the angle brackets, trims, and
truncates to at most 1000 characters (so its output never exceeds 1000);
idempotence holds exactly on the inputs whose bracket-stripped trimmed form
fits in 1000 characters (it can fail when truncation exposes trailing
whitespace, see the counterexample). -/
theorem sanitize_shape_and_conditional_idem (s : String) :
    (sanitize s).length ≤ 1000 ∧
    ((jsTrimL (s.data.filter (fun c => !(c = '<' || c = '>')))).length ≤ 1000 →
      sanitize (sanitize s) = sanitize s) := by
  constructor
  · show (String.mk ((jsTrimL (s.data.filter (fun c => !(c = '<' || c = '>')))).take 1000)).length ≤ 1000
    have : (String.mk ((jsTrimL (s.data.filter (fun c => !(c = '<' || c = '>')))).take 1000)).length
        = ((jsTrimL (s.data.filter (fun c => !(c = '<' || c = '>')))).take 1000).length := rfl
    rw [this]
    simp [List.length_take_le]
  · intro h
    have hfull : sanitize s = ⟨jsTrimL (s.data.filter (fun c => !(c = '<' || c = '>')))⟩ := by
      unfold sanitize
      rw [List.take_of_length_le h]
    rw [hfull]
    unfold sanitize
    have hdata : (String.mk (jsTrimL (s.data.filter (fun c => !(c = '<' || c = '>'))))).data
        = jsTrimL (s.data.filter (fun c => !(c = '<' || c = '>'))) := rfl
    rw [hdata]
    have hfilter : (jsTrimL (s.data.filter (fun c => !(c = '<' || c = '>')))).filter
        (fun c => !(c = '<' || c = '>'))
        = jsTrimL (s.data.filter (fun c => !(c = '<' || c = '>'))) := by
      rw [List.filter_eq_self]
      intro a ha
      have ha2 := mem_of_mem_jsTrimL _ _ ha
      exact (List.mem_filter.mp ha2).2
    rw [hfilter, jsTrimL_idem, List.take_of_length_le h]

/-- Witness for C4 (amended) at the test suite's injection probe. -/
theorem sanitize_shape_and_conditional_idem_w :
    (jsTrimL (("<script>x</script>" : String).data.filter
        (fun c => !(c = '<' || c = '>')))).length ≤ 1000 ∧
    sanitize (sanitize ("<script>x</script>")) = sanitize ("<script>x</script>") :=
  ⟨by decide, (sanitize_shape_and_conditional_idem ("<script>x</script>")).2 (by decide)⟩

theorem scanTag_not_listCmd (t : String) (htag : strHasTag ("scan:") t = true) :
    ¬((decide (t = "list") || decide (t = "/list")) = true) := by
  intro hcontra
  have hp : ("scan:" : String).data <+: t.data := by
    unfold strHasTag at htag
    exact List.isPrefixOf_iff_prefix.mp htag
  simp only [Bool.or_eq_true, decide_eq_true_eq] at hcontra
  rcases hcontra with he | he
  · rw [he] at hp
    have hlen := hp.length_le
    revert hlen
    decide
  · rw [he] at hp
    have heq := hp.eq_of_length (by decide)
    exact absurd heq (by decide)

/-- C5 counterexample: on a message whose `scan:` tag is followed directly
by a newline, the source does not split at that first newline (the claim's
reading): the regex's greedy whitespace class has already consumed it, so
the prompt becomes the second line instead of the empty first line. -/
theorem parseMessage_scan_split_cex :
    parseMessage ("scan:\nfoo\nbar") =
      { type := MsgType.scan, prompt := some ("foo"), content := some ("bar") } ∧
    claimScanParse ("scan:\nfoo\nbar") =
      { type := MsgType.scan, prompt := some (""), content := some ("foo\nbar") } ∧
    parseMessage ("scan:\nfoo\nbar") ≠ claimScanParse ("scan:\nfoo\nbar") := by
  refine ⟨by decide, by decide, by decide⟩

/-- C5 amended: for a trimmed message carrying the case-insensitive `scan:`
tag, the parser first consumes every whitespace character (newlines
included) after the tag, then splits the rest at its FIRST newline: the
first piece, trimmed, is the prompt; the remaining piece — one contiguous
substring with interior newlines preserved verbatim — trimmed as a block is
the content, and the content is absent (`none`, distinct from the empty
string) when that block trims to empty.  When nothing follows the tag the
message parses as `unknown`. -/
theorem parseMessage_scan_branch (s : String)
    (htag : strHasTag ("scan:") (lowerStr (jsTrim s)) = true) :
    (scanRemainder s = [] → parseMessage s = { type := MsgType.unknown }) ∧
    (scanRemainder s ≠ [] →
      parseMessage s =
        { type := MsgType.scan, prompt := some ⟨jsTrimL (scanFirstLine s)⟩,
          content := if (jsTrimL (scanBody s)).isEmpty then none
                     else some ⟨jsTrimL (scanBody s)⟩ }) := by
  have hlist := scanTag_not_listCmd (lowerStr (jsTrim s)) htag
  constructor
  · intro h
    simp only [parseMessage]
    rw [if_neg hlist, if_pos htag]
    rw [show (jsTrim s).data.drop 5 = [] from h]
    simp [captureDotAllL]
  · intro h
    have hex : ∃ c ∈ (jsTrim s).data.drop 5, isJsWS c = false :=
      exists_nonWS_of_drop_trim s.data 5 h
    have hcap : captureDotAllL ((jsTrim s).data.drop 5) = some (scanAfterWs s) :=
      captureDotAllL_of_exists _ hex
    simp only [parseMessage]
    rw [if_neg hlist, if_pos htag]
    simp only [hcap]
    rw [jsSplitCharL_headD '\n' (scanAfterWs s), jsSplitCharL_drop_join '\n' (scanAfterWs s)]
    rfl

/-- Witness for C5 (amended) at the multi-line input of the test suite. -/
theorem parseMessage_scan_branch_w :
    strHasTag ("scan:") (lowerStr (jsTrim ("scan: research\nLine 1\nLine 2"))) = true ∧
    scanRemainder ("scan: research\nLine 1\nLine 2") ≠ [] ∧
    parseMessage ("scan: research\nLine 1\nLine 2") =
      { type := MsgType.scan,
        prompt := some ⟨jsTrimL (scanFirstLine ("scan: research\nLine 1\nLine 2"))⟩,
        content := if (jsTrimL (scanBody ("scan: research\nLine 1\nLine 2"))).isEmpty then none
                   else some ⟨jsTrimL (scanBody ("scan: research\nLine 1\nLine 2"))⟩ } :=
  ⟨by decide, by decide,
   (parseMessage_scan_branch ("scan: research\nLine 1\nLine 2") (by decide)).2 (by decide)⟩

theorem encrypt_ne_empty (C : CipherPrim) (iv : List Nat) (t : String) :
    encrypt C iv t ≠ "" := by
  intro h
  have hd : (bytesToHexL iv ++ ':' :: (C.enc iv t).data) = ([] : List Char) :=
    congrArg String.data h
  simp at hd

theorem getSession_saveSession_apiKey (C : CipherPrim) (iv : List Nat)
    (kv : KV) (uid : Nat) (s : UserSession) (k : String)
    (hk : s.apiKey = some k) (hkne : k ≠ "")
    (hiv : iv.length = 16) (hb : ∀ b ∈ iv, b < 256)
    (hcf : ∀ ch ∈ (C.enc iv k).data, ch ≠ ':')
    (hrt : C.dec iv (C.enc iv k) = some k) :
    (getSession C (saveSession C iv kv uid s) uid).apiKey = some k := by
  cases s with
  | mk sa sl sli =>
    have hk2 : sa = some k := hk
    subst hk2
    simp only [saveSession, getSession]
    rw [if_neg hkne]
    simp only [if_true]
    rw [if_neg (encrypt_ne_empty C iv k)]
    rw [decrypt_encrypt C iv k hiv hb hcf hrt]

/-- C2: session credential round-trip — after `updateSession uid (apiKey c)`
with a non-empty credential, `getSession uid` returns the same credential
in plaintext; the cipher-primitive facts a real AES-CBC instance provides
(decryption inverts encryption at this IV and plaintext; the hex ciphertext
contains no colon; the IV is 16 bytes) are explicit hypotheses. -/
theorem session_credential_roundtrip (C : CipherPrim) (iv : List Nat)
    (kv : KV) (uid : Nat) (c : String) (hc : c ≠ "")
    (hiv : iv.length = 16) (hb : ∀ b ∈ iv, b < 256)
    (hcf : ∀ ch ∈ (C.enc iv c).data, ch ≠ ':')
    (hrt : C.dec iv (C.enc iv c) = some c) :
    (getSession C (updateSession C iv kv uid { apiKey := some (some c) }).2 uid).apiKey
      = some c := by
  unfold updateSession
  exact getSession_saveSession_apiKey C iv kv uid
    (mergeSession (getSession C kv uid) { apiKey := some (some c) }) c rfl hc hiv hb hcf hrt

/-- Witness for C2 with the identity cipher primitive, the zero IV and a
concrete credential over an empty store. -/
theorem session_credential_roundtrip_w :
    (getSession idCipher (updateSession idCipher ivZero kvEmpty 7
        { apiKey := some (some ("ep_witness_key_123")) }).2 7).apiKey
      = some ("ep_witness_key_123") :=
  session_credential_roundtrip idCipher ivZero kvEmpty 7 ("ep_witness_key_123")
    (by decide) (by decide) (by decide) (by decide) (by decide)

/-- C3: `getSession` is total by construction; an absent record yields the
empty session, and when decryption of a stored non-empty credential fails
the returned record has the credential cleared and every other field
(`lastPrompt`, `linkedAt`) preserved unchanged. -/
theorem getSession_absent_and_corrupt (C : CipherPrim) (kv : KV) (uid : Nat) :
    (kv uid = none → getSession C kv uid = {}) ∧
    (∀ d ek, kv uid = some d → d.apiKey = some ek → ek ≠ "" →
      decrypt C ek = none →
      getSession C kv uid =
        { apiKey := none, lastPrompt := d.lastPrompt, linkedAt := d.linkedAt }) := by
  constructor
  · intro h
    simp only [getSession, h]
  · intro d ek hd hk hne hdec
    simp only [getSession, hd, hk]
    rw [if_neg hne, hdec]

/-- Witness for C3: the empty store yields the empty session, and a store
whose ciphertext is not in `iv:ciphertext` shape yields the record with the
credential cleared and the other fields intact. -/
theorem getSession_absent_and_corrupt_w :
    getSession idCipher kvEmpty 7 = {} ∧
    getSession idCipher kvCorrupt 7 =
      { apiKey := none, lastPrompt := some ("job tracker"),
        linkedAt := some ("2024-01-01T00:00:00Z") } :=
  ⟨(getSession_absent_and_corrupt idCipher kvEmpty 7).1 rfl,
   (getSession_absent_and_corrupt idCipher kvCorrupt 7).2
     { apiKey := some ("deadbeef"), lastPrompt := some ("job tracker"),
       linkedAt := some ("2024-01-01T00:00:00Z") }
     ("deadbeef") rfl rfl (by decide) (by decide)⟩

/-- C6: nonce freshness — two encryptions of the same plaintext under
distinct 16-byte IVs give different ciphertext strings (their embedded hex
IVs already differ), and each output is self-contained: splitting it at the
colon recovers the IV, so decryption returns the plaintext. -/
theorem encrypt_nonce_freshness (C : CipherPrim) (p : String)
    (iv1 iv2 : List Nat)
    (h1 : iv1.length = 16) (h2 : iv2.length = 16)
    (hb1 : ∀ b ∈ iv1, b < 256) (hb2 : ∀ b ∈ iv2, b < 256)
    (hne : iv1 ≠ iv2)
    (hcf1 : ∀ ch ∈ (C.enc iv1 p).data, ch ≠ ':')
    (hcf2 : ∀ ch ∈ (C.enc iv2 p).data, ch ≠ ':')
    (hrt1 : C.dec iv1 (C.enc iv1 p) = some p)
    (hrt2 : C.dec iv2 (C.enc iv2 p) = some p) :
    encrypt C iv1 p ≠ encrypt C iv2 p ∧
    decrypt C (encrypt C iv1 p) = some p ∧
    decrypt C (encrypt C iv2 p) = some p := by
  refine ⟨?_, decrypt_encrypt C iv1 p h1 hb1 hcf1 hrt1,
    decrypt_encrypt C iv2 p h2 hb2 hcf2 hrt2⟩
  intro heq
  have hdata : bytesToHexL iv1 ++ ':' :: (C.enc iv1 p).data
      = bytesToHexL iv2 ++ ':' :: (C.enc iv2 p).data := congrArg String.data heq
  have hsplit := congrArg (jsSplitCharL ':') hdata
  rw [jsSplitCharL_append ':' _ _ (bytesToHexL_colonFree iv1),
    jsSplitCharL_append ':' _ _ (bytesToHexL_colonFree iv2)] at hsplit
  injection hsplit with hhex _
  exact hne (bytesToHexL_inj iv1 iv2 hb1 hb2 hhex)

/-- Witness for C6 with the identity cipher primitive and two concrete
distinct IVs. -/
theorem encrypt_nonce_freshness_w :
    encrypt idCipher ivZero ("ep_secret") ≠
      encrypt idCipher (List.replicate 15 0 ++ [1]) ("ep_secret") ∧
    decrypt idCipher (encrypt idCipher ivZero ("ep_secret")) = some ("ep_secret") ∧
    decrypt idCipher (encrypt idCipher (List.replicate 15 0 ++ [1]) ("ep_secret"))
      = some ("ep_secret") :=
  encrypt_nonce_freshness idCipher ("ep_secret") ivZero (List.replicate 15 0 ++ [1])
    (by decide) (by decide) (by decide) (by decide) (by decide) (by decide)
    (by decide) (by decide) (by decide)

theorem getSession_saveSession_linkedAt (C : CipherPrim) (iv : List Nat)
    (kv : KV) (uid : Nat) (s : UserSession) :
    (getSession C (saveSession C iv kv uid s) uid).linkedAt = s.linkedAt := by
  cases s with
  | mk sa sl sli =>
    cases sa with
    | none => simp [saveSession, getSession]
    | some k =>
      by_cases hk : k = ""
      · simp [saveSession, getSession, hk]
      · simp only [saveSession, getSession, if_neg hk, if_true]
        rw [if_neg (encrypt_ne_empty C iv k)]
        cases hd : decrypt C (encrypt C iv k) <;> simp

/-- C9 counterexample: `linkedAt` does not keep its original value — a
second accepted credential overwrites it with the new submission time
(`setApiKey` stamps `linkedAt` unconditionally). -/
theorem linkedAt_overwritten_cex :
    (getSession idCipher kvLinked 7).linkedAt = some ("2024-01-01T00:00:00Z") ∧
    (getSession idCipher (setApiKey idCipher ivZero kvLinked 7
        ("ep_replacement_key_123") ("2025-06-06T12:00:00Z")) 7).linkedAt
      = some ("2025-06-06T12:00:00Z") ∧
    some ("2025-06-06T12:00:00Z") ≠ (some ("2024-01-01T00:00:00Z") : Option String) :=
  ⟨by decide, by decide, by decide⟩

/-- C9 amended: `linkedAt` is stamped with the current time on EVERY
accepted credential submission (`setApiKey` overwrites any earlier value),
and is left unchanged by operations that do not carry it, such as
`setLastPrompt`. -/
theorem linkedAt_stamped_each_accept (C : CipherPrim) (iv : List Nat)
    (kv : KV) (uid : Nat) (key now prompt : String) :
    (getSession C (setApiKey C iv kv uid key now) uid).linkedAt = some now ∧
    (getSession C (setLastPrompt C iv kv uid prompt) uid).linkedAt
      = (getSession C kv uid).linkedAt := by
  constructor
  · unfold setApiKey updateSession
    rw [getSession_saveSession_linkedAt]
    rfl
  · unfold setLastPrompt updateSession
    rw [getSession_saveSession_linkedAt]
    rfl

/-- C7 counterexample: a backend failure during the LIST operation is not
converted into a success-false/error-string result — `listEndpoints` maps a
thrown error to the empty array, so the failed run is indistinguishable
from a successful run with no endpoints, and the user-visible reply is the
ordinary empty-list reply. -/
theorem list_failure_not_failure_shaped_cex :
    listEndpoints (Except.error ("Network failure")) = ([] : List EndpointListItem) ∧
    listEndpoints (Except.error ("Network failure"))
      = listEndpoints (Except.ok ({} : TreeResponse)) ∧
    handleListMessage idCipher kvKeyed 7 (Except.error ("Network failure"))
      = handleListMessage idCipher kvKeyed 7 (Except.ok ({} : TreeResponse)) ∧
    handleListMessage idCipher kvKeyed 7 (Except.error ("Network failure"))
      = [Reply.endpointsList []] :=
  ⟨rfl, rfl, by decide, by decide⟩

/-- C7 amended: every thrown backend error in `scanText`, `scanFile` and
`getEndpoint` is caught at the call site and becomes the uniform
success-false record carrying the error string, while `listEndpoints` maps
a thrown error to the empty list; and each text-message handler produces
exactly one user-visible reply whatever the session state and the backend
outcome. -/
theorem backend_failure_handling (C : CipherPrim) (iv : List Nat) (kv : KV)
    (uid : Nat) (e p prompt : String) (content : Option String)
    (outT : Except String TreeResponse) (outS : Except String ScanResponse)
    (outG : Except String GetResponse) :
    scanText (Except.error e) = { success := false, error := some e } ∧
    scanFile (Except.error e) = { success := false, error := some e } ∧
    getEndpoint p (Except.error e) = { success := false, error := some e } ∧
    listEndpoints (Except.error e) = [] ∧
    (handleListMessage C kv uid outT).length = 1 ∧
    ((handleScanMessage C iv kv uid prompt content outS).1).length = 1 ∧
    (handleTextScanMessage C kv uid outS).length = 1 ∧
    (handleGetMessage C kv uid p outG).length = 1 := by
  refine ⟨rfl, rfl, rfl, rfl, ?_, ?_, ?_, ?_⟩
  · rcases h : truthyS (getApiKey C kv uid) with _ | k <;> simp [handleListMessage, h]
  · rcases h : truthyS (getApiKey C kv uid) with _ | k
    · simp [handleScanMessage, h]
    · simp only [handleScanMessage, h]
      split <;> simp
  · rcases h : truthyS (getApiKey C kv uid) with _ | k
    · simp [handleTextScanMessage, h]
    · rcases h2 : truthyS (getLastPrompt C kv uid) with _ | pr <;>
        simp [handleTextScanMessage, h, h2]
  · rcases h : truthyS (getApiKey C kv uid) with _ | k <;> simp [handleGetMessage, h]

/-- C8: a decision button-press with the pending file present consumes it
exactly once — the scan request goes out with the chosen processing-mode
flag and the holder is deleted — and a press with the holder absent
(expired or already consumed, in particular any second press) produces the
"expired, please re-upload" reply instead of a fault. -/
theorem pending_file_consumed_once (C : CipherPrim) (kv : KV) (pkv : PKV)
    (uid : Nat) (pf : PendingFile) (data data2 : String) (k : String)
    (outcome outcome2 : Except String ScanResponse)
    (hpf : pkv uid = some pf)
    (hk : truthyS (getApiKey C kv uid) = some k) :
    (handleOpenclawCallback C kv pkv uid data outcome).1
      = [Reply.scanReply (scanFile outcome)] ∧
    (handleOpenclawCallback C kv pkv uid data outcome).2.1
      = [BackendCall.scanFileCall k pf.prompt pf.buffer pf.filename pf.mimeType
          (some ⟨data = "openclaw:yes"⟩)] ∧
    (handleOpenclawCallback C kv pkv uid data outcome).2.2 uid = none ∧
    (handleOpenclawCallback C kv
        ((handleOpenclawCallback C kv pkv uid data outcome).2.2)
        uid data2 outcome2).1 = [Reply.expiredFile] ∧
    (handleOpenclawCallback C kv
        ((handleOpenclawCallback C kv pkv uid data outcome).2.2)
        uid data2 outcome2).2.1 = [] ∧
    (∀ pkv2 : PKV, pkv2 uid = none →
      (handleOpenclawCallback C kv pkv2 uid data2 outcome2).1
        = [Reply.expiredFile]) := by
  have hrun : ∀ pkv2 : PKV, pkv2 uid = none →
      handleOpenclawCallback C kv pkv2 uid data2 outcome2
        = ([Reply.expiredFile], [],
           fun u => if u = uid then none else pkv2 u) := by
    intro pkv2 h2
    simp [handleOpenclawCallback, getPendingFile, h2]
  have hdel : (handleOpenclawCallback C kv pkv uid data outcome).2.2 uid = none := by
    simp [handleOpenclawCallback, getPendingFile, hpf, hk]
  refine ⟨?_, ?_, hdel, ?_, ?_, fun pkv2 h2 => by rw [hrun pkv2 h2]⟩
  · simp [handleOpenclawCallback, getPendingFile, hpf, hk]
  · simp [handleOpenclawCallback, getPendingFile, hpf, hk]
  · rw [hrun _ hdel]
  · rw [hrun _ hdel]

/-- Witness for C8 with concrete stores: user 7 holds a pending file and a
working credential; the press is the yes-mode decision. -/
theorem pending_file_consumed_once_w :
    (handleOpenclawCallback idCipher kvKeyed pkvPending 7 ("openclaw:yes")
        (Except.error ("boom"))).1
      = [Reply.scanReply (scanFile (Except.error ("boom")))] ∧
    (handleOpenclawCallback idCipher kvKeyed pkvPending 7 ("openclaw:yes")
        (Except.error ("boom"))).2.2 7 = none ∧
    (handleOpenclawCallback idCipher kvKeyed
        ((handleOpenclawCallback idCipher kvKeyed pkvPending 7 ("openclaw:yes")
            (Except.error ("boom"))).2.2)
        7 ("openclaw:yes") (Except.error ("boom"))).1 = [Reply.expiredFile] := by
  have h := pending_file_consumed_once idCipher kvKeyed pkvPending 7 pfWitness
    ("openclaw:yes") ("openclaw:yes") ("ep_stored_key_123")
    (Except.error ("boom")) (Except.error ("boom")) (by decide) (by decide)
  exact ⟨h.1, h.2.2.1, h.2.2.2.1⟩

/-- C10 counterexample: an upload IS refused on the basis of its reported
size, in both upload handlers — a document whose `file_size` exceeds
10485760 bytes gets the "file too large" reply and no backend call, and a
photo whose largest size entry exceeds the same bound gets the "image too
large" reply and no backend call — while the same uploads reported one
byte smaller are forwarded (the document with caption, filename and mime
type passed through; the photo with its synthesized
`photo_<timestamp>.jpg` / `image/jpeg` request fields). -/
theorem upload_size_rejection_cex :
    (handleDocument idCipher ivZero kvKeyed 7
        { file_size := some (10485761), file_name := some ("big.pdf"),
          mime_type := some ("application/pdf") }
        (some ("job tracker")) (Except.ok [1, 2, 3])
        (Except.error ("x"))).1 = [Reply.fileTooLarge] ∧
    (handleDocument idCipher ivZero kvKeyed 7
        { file_size := some (10485761), file_name := some ("big.pdf"),
          mime_type := some ("application/pdf") }
        (some ("job tracker")) (Except.ok [1, 2, 3])
        (Except.error ("x"))).2.1 = [] ∧
    (handleDocument idCipher ivZero kvKeyed 7
        { file_size := some (10485760), file_name := some ("big.pdf"),
          mime_type := some ("application/pdf") }
        (some ("job tracker")) (Except.ok [1, 2, 3])
        (Except.error ("x"))).2.1
      = [BackendCall.scanFileCall ("ep_stored_key_123") ("job tracker") [1, 2, 3]
          ("big.pdf") ("application/pdf") none] ∧
    (handlePhoto idCipher ivZero kvKeyed 7
        [{ file_size := some (64) }, { file_size := some (10485761) }]
        (some ("receipts")) 42 (Except.ok [1, 2, 3])
        (Except.error ("x"))).1 = [Reply.imageTooLarge] ∧
    (handlePhoto idCipher ivZero kvKeyed 7
        [{ file_size := some (64) }, { file_size := some (10485761) }]
        (some ("receipts")) 42 (Except.ok [1, 2, 3])
        (Except.error ("x"))).2.1 = [] ∧
    (handlePhoto idCipher ivZero kvKeyed 7
        [{ file_size := some (64) }, { file_size := some (10485760) }]
        (some ("receipts")) 42 (Except.ok [1, 2, 3])
        (Except.error ("x"))).2.1
      = [BackendCall.scanFileCall ("ep_stored_key_123") ("receipts") [1, 2, 3]
          ("photo_42.jpg") ("image/jpeg") none] :=
  ⟨by decide, by decide, by decide, by decide, by decide, by decide⟩

/-- C10 amended: both upload handlers refuse an upload whose truthy
reported size exceeds 10 MB (`MAX_FILE_SIZE` = 10485760 bytes) — the
document handler with the "file too large" reply, the photo handler,
gating on the LAST (largest) size entry, with the "image too large" reply
— and issue no backend call for it; below that gate the file content is
never inspected: a usable caption becomes the prompt, the document request
carries the bytes, filename and mime type unchanged (with the JS defaults
for absent fields), and the photo request carries the bytes with the
synthesized `photo_<timestamp>.jpg` filename and `image/jpeg` mime type. -/
theorem upload_size_gate_and_forwarding (C : CipherPrim) (iv : List Nat)
    (kv : KV) (uid : Nat) (doc : DocumentInfo) (caption : Option String)
    (buffer : List Nat) (outcome : Except String ScanResponse)
    (photos : List PhotoInfo) (photo : PhotoInfo) (now : Nat)
    (k c : String)
    (hk : truthyS (getApiKey C kv uid) = some k) :
    (doc.file_size.getD 0 ≠ 0 ∧ MAX_FILE_SIZE < doc.file_size.getD 0 →
      (handleDocument C iv kv uid doc caption (Except.ok buffer) outcome).1
        = [Reply.fileTooLarge] ∧
      (handleDocument C iv kv uid doc caption (Except.ok buffer) outcome).2.1
        = []) ∧
    (¬(doc.file_size.getD 0 ≠ 0 ∧ MAX_FILE_SIZE < doc.file_size.getD 0) →
      truthyS (caption.map jsTrim) = some c →
      isFileCaption c = true →
      sanitize c ≠ "" →
      (handleDocument C iv kv uid doc caption (Except.ok buffer) outcome).1
        = [Reply.scanReply (scanFile outcome)] ∧
      (handleDocument C iv kv uid doc caption (Except.ok buffer) outcome).2.1
        = [BackendCall.scanFileCall k (sanitize c) buffer
            (jsOr doc.file_name ("document"))
            (jsOr doc.mime_type ("application/octet-stream")) none]) ∧
    (photos.getLast? = some photo →
      photo.file_size.getD 0 ≠ 0 ∧ MAX_FILE_SIZE < photo.file_size.getD 0 →
      (handlePhoto C iv kv uid photos caption now (Except.ok buffer) outcome).1
        = [Reply.imageTooLarge] ∧
      (handlePhoto C iv kv uid photos caption now (Except.ok buffer) outcome).2.1
        = []) ∧
    (photos.getLast? = some photo →
      ¬(photo.file_size.getD 0 ≠ 0 ∧ MAX_FILE_SIZE < photo.file_size.getD 0) →
      truthyS (caption.map jsTrim) = some c →
      isFileCaption c = true →
      sanitize c ≠ "" →
      (handlePhoto C iv kv uid photos caption now (Except.ok buffer) outcome).1
        = [Reply.scanReply (scanFile outcome)] ∧
      (handlePhoto C iv kv uid photos caption now (Except.ok buffer) outcome).2.1
        = [BackendCall.scanFileCall k (sanitize c) buffer
            ("photo_" ++ toString now ++ ".jpg") ("image/jpeg") none]) := by
  refine ⟨?_, ?_, ?_, ?_⟩
  · intro hbig
    constructor <;> simp [handleDocument, hk, if_pos hbig]
  · intro hsmall hcap hfc hsan
    have hres : truthyS (some (sanitize c)) = some (sanitize c) := by
      simp [truthyS, hsan]
    constructor <;>
      simp [handleDocument, hk, if_neg hsmall, hcap, hfc, documentScanStep, hres]
  · intro hlast hbig
    constructor <;> simp [handlePhoto, hlast, hk, if_pos hbig]
  · intro hlast hsmall hcap hfc hsan
    have hres : truthyS (some (sanitize c)) = some (sanitize c) := by
      simp [truthyS, hsan]
    constructor <;>
      simp [handlePhoto, hlast, hk, if_neg hsmall, hcap, hfc, hres]

/-- Witness for C10 (amended): over the keyed store, the oversize gate
fires at 10 MB + 1 for a document and for the last photo entry, and the
below-gate forwarding fires at small sizes for both handlers. -/
theorem upload_size_gate_and_forwarding_w :
    (handleDocument idCipher ivZero kvKeyed 7
        { file_size := some (10485761), file_name := none, mime_type := none }
        (some ("receipts")) (Except.ok [9, 9]) (Except.error ("y"))).1
      = [Reply.fileTooLarge] ∧
    (handleDocument idCipher ivZero kvKeyed 7
        { file_size := some (64), file_name := none, mime_type := none }
        (some ("receipts")) (Except.ok [9, 9]) (Except.error ("y"))).2.1
      = [BackendCall.scanFileCall ("ep_stored_key_123") ("receipts") [9, 9]
          ("document") ("application/octet-stream") none] ∧
    (handlePhoto idCipher ivZero kvKeyed 7 [{ file_size := some (10485761) }]
        (some ("receipts")) 42 (Except.ok [9, 9]) (Except.error ("y"))).1
      = [Reply.imageTooLarge] ∧
    (handlePhoto idCipher ivZero kvKeyed 7 [{ file_size := some (64) }]
        (some ("receipts")) 42 (Except.ok [9, 9]) (Except.error ("y"))).2.1
      = [BackendCall.scanFileCall ("ep_stored_key_123") ("receipts") [9, 9]
          ("photo_42.jpg") ("image/jpeg") none] := by
  have hdocBig := (upload_size_gate_and_forwarding idCipher ivZero kvKeyed 7
    { file_size := some (10485761), file_name := none, mime_type := none }
    (some ("receipts")) [9, 9] (Except.error ("y"))
    [{ file_size := some (10485761) }] { file_size := some (10485761) } 42
    ("ep_stored_key_123") ("receipts") (by decide)).1 (by decide)
  have hdocSmall := (upload_size_gate_and_forwarding idCipher ivZero kvKeyed 7
    { file_size := some (64), file_name := none, mime_type := none }
    (some ("receipts")) [9, 9] (Except.error ("y"))
    [{ file_size := some (64) }] { file_size := some (64) } 42
    ("ep_stored_key_123") ("receipts") (by decide)).2.1 (by decide) (by decide)
    (by decide) (by decide)
  have hphotoBig := (upload_size_gate_and_forwarding idCipher ivZero kvKeyed 7
    { file_size := some (10485761), file_name := none, mime_type := none }
    (some ("receipts")) [9, 9] (Except.error ("y"))
    [{ file_size := some (10485761) }] { file_size := some (10485761) } 42
    ("ep_stored_key_123") ("receipts") (by decide)).2.2.1 (by decide) (by decide)
  have hphotoSmall := (upload_size_gate_and_forwarding idCipher ivZero kvKeyed 7
    { file_size := some (64), file_name := none, mime_type := none }
    (some ("receipts")) [9, 9] (Except.error ("y"))
    [{ file_size := some (64) }] { file_size := some (64) } 42
    ("ep_stored_key_123") ("receipts") (by decide)).2.2.2 (by decide) (by decide)
    (by decide) (by decide) (by decide)
  exact ⟨hdocBig.1, hdocSmall.2, hphotoBig.1, hphotoSmall.2⟩
